import Mathlib

/-!
Verification development for the `eessh` channel multiplexing engine and its
packet-framed I/O substrate (channel.c + packet.c).

Shallow embedding conventions:
* `size_t` values are `Nat`s; arithmetic that the C performs modulo 2^64 is
  written with an explicit `% 2^64`.
* Byte arrays (`uint8_t *`) are `List Nat` whose entries stand for the byte
  values (all concrete inputs below use entries < 256).
* C functions returning `int` status codes return an `Int` component that is
  `0` on success and `-1` on failure, exactly as the source does.
* Host callbacks (function pointers in `struct SSH_CHAN`) are modelled by the
  trace of invocations (`ChanEvent`) the engine produces, plus per-channel
  fields holding the value the fallible callbacks return.
-/

set_option autoImplicit false

namespace Eessh

/-! ## packet.c: checked arithmetic -/

/-- `checked_add` from packet.c: computes `a + b` in `size_t` (i.e. mod 2^64)
and fails iff the addition wrapped (`a + b < a`). -/
def checked_add (a b : Nat) : Option Nat :=
  if (a + b) % 2^64 < a then none else some ((a + b) % 2^64)

/-- `check_advance` from packet.c: `checked_add(&new_pos, pos, adv)` then the
`new_pos > len` test; `0` iff `pos + adv <= len` with no `size_t` wraparound,
`-1` otherwise. -/
def check_advance (pos adv len : Nat) : Int :=
  (checked_add pos adv).elim (-1) (fun new_pos => if new_pos > len then -1 else 0)

/-! ## packet.c: buffers (write side)

`struct SSH_BUFFER` is (data, len, cap); capacity management and reallocation
never changes the byte contents, so the embedding keeps only the byte list
(`len` is its length). -/

structure SSH_BUFFER where
  data : List Nat
deriving Repr, DecidableEq, Inhabited

/-- `ssh_buf_write_u8`: append one byte (value truncated to `uint8_t`). -/
def ssh_buf_write_u8 (buf : SSH_BUFFER) (val : Nat) : SSH_BUFFER :=
  ⟨buf.data ++ [val % 256]⟩

/-- The four big-endian bytes `ssh_buf_write_u32` emits for `val`. -/
def u32_bytes (val : Nat) : List Nat :=
  [(val >>> 24) % 256, (val >>> 16) % 256, (val >>> 8) % 256, val % 256]

/-- `ssh_buf_write_u32`: append a big-endian 32-bit value. -/
def ssh_buf_write_u32 (buf : SSH_BUFFER) (val : Nat) : SSH_BUFFER :=
  ⟨buf.data ++ u32_bytes val⟩

/-- `ssh_buf_write_data`: a 4-byte big-endian length followed by the bytes. -/
def ssh_buf_write_data (buf : SSH_BUFFER) (val : List Nat) : SSH_BUFFER :=
  ⟨(ssh_buf_write_u32 buf val.length).data ++ val⟩

/-- `ssh_buf_write_cstring`: same as `write_data` with `len = strlen(val)`;
the argument is the byte list of the C string (terminator excluded). -/
def ssh_buf_write_cstring (buf : SSH_BUFFER) (val : List Nat) : SSH_BUFFER :=
  ssh_buf_write_data buf val

/-! ## packet.c: buf_reader (read side) -/

/-- Read one byte of borrowed memory: `data[i]` for a `uint8_t *`.  Out of
range indices (impossible under the bounds checks below) give 0. -/
def byteAt (data : List Nat) (i : Nat) : Nat :=
  data.getD i 0

structure SSH_BUF_READER where
  data : List Nat
  pos : Nat
  len : Nat
deriving Repr, DecidableEq, Inhabited

/-- `ssh_buf_reader_new` over a whole byte array. -/
def ssh_buf_reader_new (data : List Nat) : SSH_BUF_READER :=
  ⟨data, 0, data.length⟩

/-- `struct SSH_STRING`: a borrowed view (pointer, length); the pointer is
embedded as the byte list it points at. -/
structure SSH_STRING where
  str : List Nat
  len : Nat
deriving Repr, DecidableEq, Inhabited

/-- Result of a C read operation: the returned status, the reader as left
behind by the call (the C mutates it in place), and the out-parameter, which
stays unwritten (`none`) on failure. -/
structure ReadResult (α : Type) where
  ret : Int
  buf : SSH_BUF_READER
  val : Option α
deriving Repr, DecidableEq

/-- `ssh_buf_read_u8`. -/
def ssh_buf_read_u8 (buf : SSH_BUF_READER) : ReadResult Nat :=
  if check_advance buf.pos 1 buf.len < 0 then ⟨-1, buf, none⟩
  else ⟨0, { buf with pos := (buf.pos + 1) % 2^64 }, some (byteAt buf.data buf.pos)⟩

/-- The big-endian recombination `ssh_buf_read_u32` performs. -/
def u32_from_bytes (b0 b1 b2 b3 : Nat) : Nat :=
  (b0 <<< 24) ||| (b1 <<< 16) ||| (b2 <<< 8) ||| b3

/-- `ssh_buf_read_u32`; the source tests `if (check_advance(...))`, i.e.
any nonzero status is failure. -/
def ssh_buf_read_u32 (buf : SSH_BUF_READER) : ReadResult Nat :=
  if check_advance buf.pos 4 buf.len ≠ 0 then ⟨-1, buf, none⟩
  else ⟨0, { buf with pos := (buf.pos + 4) % 2^64 },
        some (u32_from_bytes (byteAt buf.data buf.pos) (byteAt buf.data (buf.pos + 1))
          (byteAt buf.data (buf.pos + 2)) (byteAt buf.data (buf.pos + 3)))⟩

/-- `ssh_buf_read_string`: a `u32` length then that many bytes, returned as a
borrowed view.  Note the source advances past the length field before the
body bounds check, so a failure there leaves `pos` moved by 4. -/
def ssh_buf_read_string (buf : SSH_BUF_READER) : ReadResult SSH_STRING :=
  let r := ssh_buf_read_u32 buf
  if r.ret < 0 then ⟨-1, r.buf, none⟩
  else
    let len := r.val.getD 0
    if check_advance r.buf.pos len r.buf.len < 0 then ⟨-1, r.buf, none⟩
    else ⟨0, { r.buf with pos := (r.buf.pos + len) % 2^64 },
          some ⟨(r.buf.data.drop r.buf.pos).take len, len⟩⟩

/-- `ssh_buf_read_skip`. -/
def ssh_buf_read_skip (buf : SSH_BUF_READER) (len : Nat) : ReadResult Unit :=
  if check_advance buf.pos len buf.len < 0 then ⟨-1, buf, none⟩
  else ⟨0, { buf with pos := (buf.pos + len) % 2^64 }, some ()⟩

/-! ### Reader helper lemmas -/

/-! ## channel.c: constants and poll-flag translation

`SSH_MSG_*` values are from `ssh_constants.h` (not in the sources here); the
numbers are the RFC 4253/4254 message codes the spec lists.  `POLL*` values
are the Linux `poll.h` constants.  `SSH_CHAN_FD_READ/WRITE` are `1<<0` and
`1<<1` from channel.h; `SSH_CHAN_FD_CLOSE` is used by channel.c but its
header is not in the sources — modelled from the spec flag set
{READ, WRITE, CLOSE} as the next bit, `1<<2`. -/

def SSH_MSG_GLOBAL_REQUEST : Nat := 80
def SSH_MSG_REQUEST_FAILURE : Nat := 82
def SSH_MSG_CHANNEL_OPEN : Nat := 90
def SSH_MSG_CHANNEL_OPEN_CONFIRMATION : Nat := 91
def SSH_MSG_CHANNEL_OPEN_FAILURE : Nat := 92
def SSH_MSG_CHANNEL_WINDOW_ADJUST : Nat := 93
def SSH_MSG_CHANNEL_DATA : Nat := 94
def SSH_MSG_CHANNEL_EXTENDED_DATA : Nat := 95
def SSH_MSG_CHANNEL_EOF : Nat := 96
def SSH_MSG_CHANNEL_CLOSE : Nat := 97
def SSH_MSG_CHANNEL_REQUEST : Nat := 98
def SSH_MSG_CHANNEL_SUCCESS : Nat := 99

def POLLIN : Nat := 1
def POLLPRI : Nat := 2
def POLLOUT : Nat := 4
def POLLHUP : Nat := 16
def POLLWRBAND : Nat := 512

def SSH_CHAN_FD_READ : Nat := 1
def SSH_CHAN_FD_WRITE : Nat := 2
def SSH_CHAN_FD_CLOSE : Nat := 4

def MAX_POLL_FDS : Nat := 8

/-- `struct pollfd`: events masks are C `short`s, embedded as `Nat` bitmasks
(< 2^16). -/
structure Pollfd where
  fd : Int
  events : Nat
  revents : Nat
deriving Repr, DecidableEq, Inhabited

/-- `chan_flags_to_pollfd_events` from channel.c. -/
def chan_flags_to_pollfd_events (chan_fd_flags : Nat) : Nat :=
  let events := 0
  let events := if chan_fd_flags &&& (SSH_CHAN_FD_READ ||| SSH_CHAN_FD_CLOSE) ≠ 0 then
    events ||| (POLLIN ||| POLLHUP) else events
  let events := if chan_fd_flags &&& SSH_CHAN_FD_WRITE ≠ 0 then
    events ||| POLLOUT else events
  events

/-- `pollfd_events_to_chan_flags` from channel.c. -/
def pollfd_events_to_chan_flags (pollfd_events : Nat) : Nat :=
  let flags := 0
  let flags := if pollfd_events &&& (POLLIN ||| POLLPRI) ≠ 0 then
    flags ||| SSH_CHAN_FD_READ else flags
  let flags := if pollfd_events &&& POLLHUP ≠ 0 then
    flags ||| SSH_CHAN_FD_CLOSE else flags
  let flags := if pollfd_events &&& (POLLOUT ||| POLLWRBAND) ≠ 0 then
    flags ||| SSH_CHAN_FD_WRITE else flags
  flags

/-- C `events &= ~mask` on a 16-bit `short`: clear the bits of `mask`. -/
def mask_clear (events mask : Nat) : Nat :=
  events &&& (mask ^^^ 0xFFFF)

/-- The scan loop of `update_poll_fd_events`: update the first entry whose fd
matches (`events |= add; events &= ~remove`), or report the fd absent. -/
def update_poll_fd_scan (poll_fds : List Pollfd) (fd : Int)
    (add_events remove_events : Nat) : Option (List Pollfd) :=
  match poll_fds with
  | [] => none
  | p :: rest =>
    if p.fd = fd then
      some ({ p with events := mask_clear (p.events ||| add_events) remove_events } :: rest)
    else
      match update_poll_fd_scan rest fd add_events remove_events with
      | some rest2 => some (p :: rest2)
      | none => none

/-- `update_poll_fd_events` from channel.c: the list models the array
together with `*num_poll_fds`. -/
def update_poll_fd_events (poll_fds : List Pollfd) (fd : Int)
    (add_events remove_events : Nat) : Int × List Pollfd :=
  match update_poll_fd_scan poll_fds fd add_events remove_events with
  | some fds => (0, fds)
  | none =>
    if poll_fds.length < MAX_POLL_FDS then
      (0, poll_fds ++ [⟨fd, mask_clear add_events remove_events, 0⟩])
    else
      (-1, poll_fds)

/-! ## channel.c: channel and connection state -/

inductive CHAN_STATUS
  | CREATED
  | REQUESTED
  | OPEN
  | CLOSED
deriving Repr, DecidableEq, Inhabited

inductive SSH_CHAN_TYPE
  | SESSION
deriving Repr, DecidableEq, Inhabited

/-- `struct SSH_CHAN_SESSION_CONFIG` (the fields the code reads); `term` is
the byte list of the TERM C string. -/
structure SSH_CHAN_SESSION_CONFIG where
  term : List Nat
  term_width : Nat
  term_height : Nat
deriving Repr, DecidableEq, Inhabited

/-- `struct SSH_CHAN`.  The six callback function pointers are modelled by
the event trace the engine produces (`ChanEvent` below) plus, for the two
fallible callbacks whose return value channel.c inspects or receives,
the value the host callback returns (`open_ret` for `notify_open`,
`fd_ready_ret` for `notify_fd_ready`). -/
structure SSH_CHAN where
  status : CHAN_STATUS
  local_num : Nat
  remote_num : Nat
  local_max_packet_size : Nat
  local_window_size : Nat
  remote_max_packet_size : Nat
  remote_window_size : Nat
  watch_fds : List Pollfd
  type : SSH_CHAN_TYPE
  type_config : SSH_CHAN_SESSION_CONFIG
  open_ret : Int
  fd_ready_ret : Int
deriving Repr, DecidableEq, Inhabited

/-- A host-callback invocation recorded by the engine. -/
inductive ChanEvent
  | opened (local_num : Nat)
  | open_failed (local_num : Nat)
  | closed (local_num : Nat)
  | received (local_num : Nat) (data : List Nat) (len : Nat)
  | fd_ready (local_num : Nat) (fd : Int) (flags : Nat)
deriving Repr, DecidableEq

/-- The slice of `struct SSH_CONN` channel.c touches: the channel table and
the outgoing packet stream (`ssh_conn_new_packet` / `ssh_conn_send_packet`
are modelled as appending the finished payload to `out_packets`). -/
structure SSH_CONN where
  channels : List SSH_CHAN
  out_packets : List (List Nat)
deriving Repr, DecidableEq, Inhabited

/-- The scan loop of `chan_get_by_num`: index of the first channel whose
`local_num` matches. -/
def chan_get_by_num_loop (channels : List SSH_CHAN) (local_num : Nat) : Option Nat :=
  match channels with
  | [] => none
  | c :: rest =>
    if c.local_num = local_num then some 0
    else (chan_get_by_num_loop rest local_num).map (fun i => i + 1)

/-- `chan_get_by_num`: first channel whose `local_num` matches, as an index
into the table (`NULL` becomes `none`). -/
def chan_get_by_num (conn : SSH_CONN) (local_num : Nat) : Option Nat :=
  chan_get_by_num_loop conn.channels local_num

/-- `ssh_chan_close` from channel.c: only an OPEN channel is moved to
CLOSED (with the `closed` callback); any other status is left untouched. -/
def ssh_chan_close (chan : SSH_CHAN) : SSH_CHAN × List ChanEvent :=
  if chan.status = CHAN_STATUS.OPEN then
    ({ chan with status := CHAN_STATUS.CLOSED }, [ChanEvent.closed chan.local_num])
  else
    (chan, [])

/-- `chan_remove_closed_channels`: sweep CLOSED channels out of the table,
preserving order. -/
def chan_remove_closed_channels (conn : SSH_CONN) : SSH_CONN :=
  { conn with channels := conn.channels.filter (fun c => c.status ≠ CHAN_STATUS.CLOSED) }

/-- `ssh_chan_watch_fd` from channel.c: translate the flag masks, run
`update_poll_fd_events` on the channel watch set (failure is an error only
when the translated enable mask is nonzero), then sweep zero-interest
entries. -/
def ssh_chan_watch_fd (chan : SSH_CHAN) (fd : Int)
    (enable_fd_flags disable_fd_flags : Nat) : Int × SSH_CHAN :=
  let enable_events := chan_flags_to_pollfd_events enable_fd_flags
  let disable_events := chan_flags_to_pollfd_events disable_fd_flags
  let r := update_poll_fd_events chan.watch_fds fd enable_events disable_events
  if r.1 < 0 ∧ enable_events ≠ 0 then
    (-1, { chan with watch_fds := r.2 })
  else
    (0, { chan with watch_fds := r.2.filter (fun p => p.events ≠ 0) })

/-- The `local_num` allocation loop of `chan_new`, on the table of existing
`local_num`s.  The C is `for (i = 0; ...) if (tbl[i] == local_num) `
`{ local_num++; i = 0; }` — after the body the `for` increment runs, so the
rescan restarts at index 1.  `fuel` makes the loop structurally recursive;
`chan_new_local_num` supplies enough fuel for the loop to finish. -/
def chan_new_scan (tbl : List Nat) : Nat → Nat → Nat → Option Nat
  | 0, _, _ => none
  | fuel + 1, local_num, i =>
    if h : i < tbl.length then
      if tbl.get ⟨i, h⟩ = local_num then chan_new_scan tbl fuel (local_num + 1) 1
      else chan_new_scan tbl fuel local_num (i + 1)
    else
      some local_num

def chan_new_local_num (tbl : List Nat) : Option Nat :=
  chan_new_scan tbl ((tbl.foldr max 0 + 2) * (tbl.length + 2)) 0 0

/-- The effect of `chan_new` on the connection table, projected to the
`local_num`s: allocate a number with the scan above and append it. -/
def chan_new_num_table (tbl : List Nat) : Option (Nat × List Nat) :=
  match chan_new_local_num tbl with
  | none => none
  | some n => some (n, tbl ++ [n])

/-- Sweeping a channel (requested closed, then removed by
`chan_remove_closed_channels`) projected to the `local_num` table. -/
def chan_table_close (tbl : List Nat) (n : Nat) : List Nat :=
  tbl.filter (fun m => m ≠ n)

/-! ## channel.c: inbound packet dispatch -/

/-- The bytes of the C string literal `"pty-req"`. -/
def pty_req_name : List Nat := [112, 116, 121, 45, 114, 101, 113]

/-- The bytes of the C string literal `"shell"`. -/
def shell_name : List Nat := [115, 104, 101, 108, 108]

/-- Replace the channel at index `i` of the connection table (the C mutates
the channel that `conn->channels[i]` points at). -/
def set_chan (conn : SSH_CONN) (i : Nat) (chan : SSH_CHAN) : SSH_CONN :=
  { conn with channels := conn.channels.set i chan }

/-- The inline SESSION branch of `chan_process_channel_packet` on
`CHANNEL_OPEN_CONFIRMATION`: the two `CHANNEL_REQUEST` packets
(`"pty-req"` with `want_reply = 0`, then `"shell"` with `want_reply = 1`)
written through `ssh_conn_new_packet` / `ssh_conn_send_packet`. -/
def chan_session_confirmation_requests (chan : SSH_CHAN) : List (List Nat) :=
  let cfg := chan.type_config
  let p := ssh_buf_write_u8 ⟨[]⟩ SSH_MSG_CHANNEL_REQUEST
  let p := ssh_buf_write_u32 p chan.remote_num
  let p := ssh_buf_write_cstring p pty_req_name
  let p := ssh_buf_write_u8 p 0
  let p := ssh_buf_write_cstring p cfg.term
  let p := ssh_buf_write_u32 p cfg.term_width
  let p := ssh_buf_write_u32 p cfg.term_height
  let p := ssh_buf_write_u32 p 0
  let p := ssh_buf_write_u32 p 0
  let p := ssh_buf_write_cstring p []
  let q := ssh_buf_write_u8 ⟨[]⟩ SSH_MSG_CHANNEL_REQUEST
  let q := ssh_buf_write_u32 q chan.remote_num
  let q := ssh_buf_write_cstring q shell_name
  let q := ssh_buf_write_u8 q 1
  [p.data, q.data]

/-- `chan_process_channel_packet` from channel.c.  Returns the C status, the
connection as left behind, and the trace of callback invocations.  Memory
allocation and packet-buffer growth cannot fail in the embedding, so the
`ssh_conn_new_packet == NULL` / write-failure exits do not arise.  On
`CHANNEL_OPEN_CONFIRMATION` the three reads store into the channel fields
one at a time, exactly as the `||` chain in the C does. -/
def chan_process_channel_packet (conn : SSH_CONN) (pack : SSH_BUF_READER) :
    Int × SSH_CONN × List ChanEvent :=
  let r1 := ssh_buf_read_u8 pack
  if r1.ret < 0 then (-1, conn, [])
  else
    let r2 := ssh_buf_read_u32 r1.buf
    if r2.ret < 0 then (-1, conn, [])
    else
      match chan_get_by_num conn (r2.val.getD 0) with
      | none => (-1, conn, [])
      | some i =>
        let chan := conn.channels.getD i default
        let pack_type := r1.val.getD 0
        if pack_type = SSH_MSG_CHANNEL_OPEN_CONFIRMATION then
          let ra := ssh_buf_read_u32 r2.buf
          if ra.ret < 0 then (-1, conn, [])
          else
            let chan := { chan with remote_num := ra.val.getD 0 }
            let conn := set_chan conn i chan
            let rb := ssh_buf_read_u32 ra.buf
            if rb.ret < 0 then (-1, conn, [])
            else
              let chan := { chan with remote_window_size := rb.val.getD 0 }
              let conn := set_chan conn i chan
              let rc := ssh_buf_read_u32 rb.buf
              if rc.ret < 0 then (-1, conn, [])
              else
                let chan := { chan with remote_max_packet_size := rc.val.getD 0 }
                let conn := set_chan conn i chan
                match chan.type with
                | SSH_CHAN_TYPE.SESSION =>
                  (0, { conn with
                        out_packets := conn.out_packets ++
                          chan_session_confirmation_requests chan }, [])
        else if pack_type = SSH_MSG_CHANNEL_OPEN_FAILURE then
          (0, conn, [ChanEvent.open_failed chan.local_num])
        else if pack_type = SSH_MSG_CHANNEL_SUCCESS then
          let chan := { chan with status := CHAN_STATUS.OPEN }
          let conn := set_chan conn i chan
          if chan.open_ret < 0 then
            let r := ssh_chan_close chan
            (0, set_chan conn i r.1, ChanEvent.opened chan.local_num :: r.2)
          else
            (0, conn, [ChanEvent.opened chan.local_num])
        else if pack_type = SSH_MSG_CHANNEL_DATA then
          let rs := ssh_buf_read_string r2.buf
          if rs.ret < 0 then (-1, conn, [])
          else
            let data := rs.val.getD default
            (0, conn, [ChanEvent.received chan.local_num data.str data.len])
        else
          -- dump_packet_reader("unhandled channel packet", ...) and fall through
          (0, conn, [])

/-- `chan_handle_global_request` from channel.c (the reply is the
one-byte `REQUEST_FAILURE` packet). -/
def chan_handle_global_request (conn : SSH_CONN) (pack : SSH_BUF_READER) :
    Int × SSH_CONN :=
  let r1 := ssh_buf_read_skip pack 1
  if r1.ret < 0 then (-1, conn)
  else
    let r2 := ssh_buf_read_string r1.buf
    if r2.ret < 0 then (-1, conn)
    else
      let r3 := ssh_buf_read_u8 r2.buf
      if r3.ret < 0 then (-1, conn)
      else if r3.val.getD 0 ≠ 0 then
        (0, { conn with
              out_packets := conn.out_packets ++
                [(ssh_buf_write_u8 ⟨[]⟩ SSH_MSG_REQUEST_FAILURE).data] })
      else
        (0, conn)

/-- Modelled from the spec: `ssh_packet_get_type` belongs to the connection
layer (not in the sources); per §4.4.3 the dispatch switches on the packet
payload first byte, which the later reads in the handlers re-read. -/
def ssh_packet_get_type (pack : SSH_BUF_READER) : Nat :=
  byteAt pack.data pack.pos

/-- `chan_process_packets` from channel.c.  `ssh_conn_recv_packet` is
modelled by the list of decrypted inbound packet payloads still queued: an
empty queue is the `EWOULDBLOCK` exit that returns 0. -/
def chan_process_packets (conn : SSH_CONN) (packets : List (List Nat)) :
    Int × SSH_CONN × List ChanEvent :=
  match packets with
  | [] => (0, conn, [])
  | p :: rest =>
    let pack := ssh_buf_reader_new p
    let t := ssh_packet_get_type pack
    if t = SSH_MSG_GLOBAL_REQUEST then
      let r := chan_handle_global_request conn pack
      if r.1 < 0 then (-1, r.2, [])
      else chan_process_packets r.2 rest
    else if t = SSH_MSG_CHANNEL_OPEN_CONFIRMATION ∨ t = SSH_MSG_CHANNEL_OPEN_FAILURE ∨
        t = SSH_MSG_CHANNEL_SUCCESS ∨ t = SSH_MSG_CHANNEL_WINDOW_ADJUST ∨
        t = SSH_MSG_CHANNEL_DATA then
      let r := chan_process_channel_packet conn pack
      if r.1 < 0 then (-1, r.2.1, r.2.2)
      else
        let r2 := chan_process_packets r.2.1 rest
        (r2.1, r2.2.1, r.2.2 ++ r2.2.2)
    else
      -- dump_packet_reader("received unknown packet", ...) and continue
      chan_process_packets conn rest

/-- `chan_notify_channels_watch_fds` from channel.c: for every channel and
every watch entry matching the signalled fd, invoke `notify_fd_ready` with
the translated readiness flags.  The C discards the callback return value
and writes nothing, so the connection comes back unchanged. -/
def chan_notify_channels_watch_fds (conn : SSH_CONN) (poll_fd : Pollfd) :
    SSH_CONN × List ChanEvent :=
  (conn,
    conn.channels.flatMap (fun chan =>
      chan.watch_fds.filterMap (fun w =>
        if poll_fd.revents ≠ 0 ∧ poll_fd.fd = w.fd then
          some (ChanEvent.fd_ready chan.local_num poll_fd.fd
            (pollfd_events_to_chan_flags poll_fd.revents))
        else none)))

/-! ## Sample values used by the claim theorems below -/

/-- A sample channel with the fresh-channel field values `chan_new` assigns
(window 262144, max packet 65536), at a chosen status and local number. -/
def mkChan (st : CHAN_STATUS) (num : Nat) : SSH_CHAN :=
  { status := st, local_num := num, remote_num := 0, local_max_packet_size := 65536,
    local_window_size := 262144, remote_max_packet_size := 0, remote_window_size := 0,
    watch_fds := [], type := SSH_CHAN_TYPE.SESSION,
    type_config := ⟨[120, 116, 101, 114, 109], 80, 24⟩, open_ret := 0, fd_ready_ret := 0 }

/-- Repeated `ssh_chan_close` calls on one channel, with the concatenated
callback trace. -/
def ssh_chan_close_iter (chan : SSH_CHAN) : Nat → SSH_CHAN × List ChanEvent
  | 0 => (chan, [])
  | n + 1 =>
    let r := ssh_chan_close chan
    let r2 := ssh_chan_close_iter r.1 n
    (r2.1, r.2 ++ r2.2)

/-- A channel watching fd 5 whose `fd_ready` callback returns -1. -/
def watchChan : SSH_CHAN :=
  { mkChan CHAN_STATUS.OPEN 0 with watch_fds := [⟨5, 1, 0⟩], fd_ready_ret := -1 }

/-- A channel numbered 3 whose `open` callback returns -1. -/
def openErrChan : SSH_CHAN :=
  { mkChan CHAN_STATUS.OPEN 3 with open_ret := -1 }

/-- A full (8-entry) watch table, all entries with interest `POLLIN`. -/
def fullWatchTable : List Pollfd :=
  [⟨1, 1, 0⟩, ⟨2, 1, 0⟩, ⟨3, 1, 0⟩, ⟨4, 1, 0⟩, ⟨5, 1, 0⟩, ⟨6, 1, 0⟩, ⟨7, 1, 0⟩, ⟨8, 1, 0⟩]

/-- A channel whose watch table is full. -/
def fullWatchChan : SSH_CHAN :=
  { mkChan CHAN_STATUS.OPEN 0 with watch_fds := fullWatchTable }

/-- A channel watching a single fd. -/
def oneWatchChan : SSH_CHAN :=
  { mkChan CHAN_STATUS.OPEN 0 with watch_fds := [⟨5, 1, 0⟩] }


/-! ## Theorems -/

theorem checked_add_eq_of_lt {a b : Nat} (h : a + b < 2^64) :
    checked_add a b = some (a + b) := by
  unfold checked_add
  rw [Nat.mod_eq_of_lt h, if_neg (by omega)]

theorem checked_add_eq_none {a b : Nat} (ha : a < 2^64) (hb : b < 2^64)
    (h : 2^64 ≤ a + b) : checked_add a b = none := by
  unfold checked_add
  rw [if_pos (by omega)]

theorem check_advance_eq_zero {pos adv len : Nat} (h1 : pos + adv < 2^64)
    (h2 : pos + adv ≤ len) : check_advance pos adv len = 0 := by
  unfold check_advance
  rw [checked_add_eq_of_lt h1]
  simp only [Option.elim_some]
  rw [if_neg (by omega)]

theorem check_advance_eq_neg {pos adv len : Nat} (hp : pos < 2^64)
    (ha : adv < 2^64) (h : len < pos + adv) : check_advance pos adv len = -1 := by
  unfold check_advance
  by_cases hov : pos + adv < 2^64
  · rw [checked_add_eq_of_lt hov]
    simp only [Option.elim_some]
    rw [if_pos (by omega)]
  · rw [checked_add_eq_none hp ha (by omega)]
    simp only [Option.elim_none]

/-- `check_advance` either fails, or the position it sanctioned is within
bounds. -/
theorem check_advance_cases (pos adv len : Nat) :
    check_advance pos adv len = -1 ∨
      (check_advance pos adv len = 0 ∧ (pos + adv) % 2^64 ≤ len) := by
  unfold check_advance checked_add
  by_cases h1 : (pos + adv) % 2^64 < pos
  · rw [if_pos h1]
    simp only [Option.elim_none]
    left
    trivial
  · rw [if_neg h1]
    simp only [Option.elim_some]
    by_cases h2 : (pos + adv) % 2^64 > len
    · rw [if_pos h2]
      left
      trivial
    · rw [if_neg h2]
      right
      exact ⟨rfl, by omega⟩

theorem ssh_buf_read_u8_eq {buf : SSH_BUF_READER} (h1 : buf.pos + 1 < 2^64)
    (h2 : buf.pos + 1 ≤ buf.len) :
    ssh_buf_read_u8 buf =
      ⟨0, { buf with pos := buf.pos + 1 }, some (byteAt buf.data buf.pos)⟩ := by
  unfold ssh_buf_read_u8
  rw [check_advance_eq_zero h1 h2, Nat.mod_eq_of_lt h1]
  norm_num

theorem ssh_buf_read_u32_eq {buf : SSH_BUF_READER} (h1 : buf.pos + 4 < 2^64)
    (h2 : buf.pos + 4 ≤ buf.len) :
    ssh_buf_read_u32 buf =
      ⟨0, { buf with pos := buf.pos + 4 },
        some (u32_from_bytes (byteAt buf.data buf.pos) (byteAt buf.data (buf.pos + 1))
          (byteAt buf.data (buf.pos + 2)) (byteAt buf.data (buf.pos + 3)))⟩ := by
  unfold ssh_buf_read_u32
  rw [check_advance_eq_zero h1 h2, Nat.mod_eq_of_lt h1]
  norm_num

theorem ssh_buf_read_skip_eq {buf : SSH_BUF_READER} {n : Nat} (h1 : buf.pos + n < 2^64)
    (h2 : buf.pos + n ≤ buf.len) :
    ssh_buf_read_skip buf n = ⟨0, { buf with pos := buf.pos + n }, some ()⟩ := by
  unfold ssh_buf_read_skip
  rw [check_advance_eq_zero h1 h2, Nat.mod_eq_of_lt h1]
  norm_num

theorem ssh_buf_read_u8_cases (buf : SSH_BUF_READER) :
    ssh_buf_read_u8 buf = ⟨-1, buf, none⟩ ∨
      (ssh_buf_read_u8 buf =
          ⟨0, ⟨buf.data, (buf.pos + 1) % 2^64, buf.len⟩, some (byteAt buf.data buf.pos)⟩ ∧
        (buf.pos + 1) % 2^64 ≤ buf.len) := by
  rcases check_advance_cases buf.pos 1 buf.len with h | ⟨h, hle⟩
  · left
    unfold ssh_buf_read_u8
    rw [h]
    norm_num
  · right
    refine ⟨?_, hle⟩
    unfold ssh_buf_read_u8
    rw [h]
    norm_num

theorem ssh_buf_read_u32_cases (buf : SSH_BUF_READER) :
    ssh_buf_read_u32 buf = ⟨-1, buf, none⟩ ∨
      (ssh_buf_read_u32 buf =
          ⟨0, ⟨buf.data, (buf.pos + 4) % 2^64, buf.len⟩,
            some (u32_from_bytes (byteAt buf.data buf.pos) (byteAt buf.data (buf.pos + 1))
              (byteAt buf.data (buf.pos + 2)) (byteAt buf.data (buf.pos + 3)))⟩ ∧
        (buf.pos + 4) % 2^64 ≤ buf.len) := by
  rcases check_advance_cases buf.pos 4 buf.len with h | ⟨h, hle⟩
  · left
    unfold ssh_buf_read_u32
    rw [h]
    norm_num
  · right
    refine ⟨?_, hle⟩
    unfold ssh_buf_read_u32
    rw [h]
    norm_num

theorem ssh_buf_read_skip_cases (buf : SSH_BUF_READER) (n : Nat) :
    ssh_buf_read_skip buf n = ⟨-1, buf, none⟩ ∨
      (ssh_buf_read_skip buf n = ⟨0, ⟨buf.data, (buf.pos + n) % 2^64, buf.len⟩, some ()⟩ ∧
        (buf.pos + n) % 2^64 ≤ buf.len) := by
  rcases check_advance_cases buf.pos n buf.len with h | ⟨h, hle⟩
  · left
    unfold ssh_buf_read_skip
    rw [h]
    norm_num
  · right
    refine ⟨?_, hle⟩
    unfold ssh_buf_read_skip
    rw [h]
    norm_num


theorem ssh_buf_read_string_pos_le (buf : SSH_BUF_READER) (hinv : buf.pos ≤ buf.len) :
    (ssh_buf_read_string buf).buf.pos ≤ buf.len ∧
      (ssh_buf_read_string buf).buf.len = buf.len := by
  rcases ssh_buf_read_u32_cases buf with h | ⟨h, hle⟩
  · simp [ssh_buf_read_string, h]
    exact hinv
  · rcases check_advance_cases ((buf.pos + 4) % 2^64)
        (u32_from_bytes (byteAt buf.data buf.pos) (byteAt buf.data (buf.pos + 1))
          (byteAt buf.data (buf.pos + 2)) (byteAt buf.data (buf.pos + 3))) buf.len with
      h2 | ⟨h2, hle2⟩
    · norm_num at h2
      simp [ssh_buf_read_string, h, h2]
      exact hle
    · norm_num at h2
      simp [ssh_buf_read_string, h, h2]
      omega

/-- C8: every reader operation (`read_u8`, `read_u32`, `read_string`,
`read_skip`) verifies `position + need ≤ length` through `check_advance`
(overflow-checked `size_t` arithmetic); a truncated input makes the read fail
with the reader untouched, and `position ≤ length` is preserved by every
operation on every input (`0 ≤ position` is automatic for a `Nat`). -/
theorem reader_ops_preserve_position_invariant (buf : SSH_BUF_READER) (n : Nat)
    (hinv : buf.pos ≤ buf.len) :
    ((ssh_buf_read_u8 buf).buf.pos ≤ buf.len ∧
      (ssh_buf_read_u32 buf).buf.pos ≤ buf.len ∧
      (ssh_buf_read_string buf).buf.pos ≤ buf.len ∧
      (ssh_buf_read_skip buf n).buf.pos ≤ buf.len) ∧
    (buf.pos < 2^64 → buf.len < buf.pos + 1 → ssh_buf_read_u8 buf = ⟨-1, buf, none⟩) ∧
    (buf.pos < 2^64 → buf.len < buf.pos + 4 →
      ssh_buf_read_u32 buf = ⟨-1, buf, none⟩ ∧ ssh_buf_read_string buf = ⟨-1, buf, none⟩) ∧
    (buf.pos < 2^64 → n < 2^64 → buf.len < buf.pos + n →
      ssh_buf_read_skip buf n = ⟨-1, buf, none⟩) := by
  refine ⟨⟨?_, ?_, ?_, ?_⟩, ?_, ?_, ?_⟩
  · rcases ssh_buf_read_u8_cases buf with h | ⟨h, hle⟩
    · rw [h]
      exact hinv
    · rw [h]
      exact hle
  · rcases ssh_buf_read_u32_cases buf with h | ⟨h, hle⟩
    · rw [h]
      exact hinv
    · rw [h]
      exact hle
  · exact (ssh_buf_read_string_pos_le buf hinv).1
  · rcases ssh_buf_read_skip_cases buf n with h | ⟨h, hle⟩
    · rw [h]
      exact hinv
    · rw [h]
      exact hle
  · intro hp hlen
    unfold ssh_buf_read_u8
    rw [check_advance_eq_neg hp (by norm_num) hlen]
    norm_num
  · intro hp hlen
    have hu : ssh_buf_read_u32 buf = ⟨-1, buf, none⟩ := by
      unfold ssh_buf_read_u32
      rw [check_advance_eq_neg hp (by norm_num) hlen]
      norm_num
    refine ⟨hu, ?_⟩
    simp [ssh_buf_read_string, hu]
  · intro hp hn hlen
    unfold ssh_buf_read_skip
    rw [check_advance_eq_neg hp hn hlen]
    norm_num

theorem reader_ops_preserve_position_invariant_witness :
    (((ssh_buf_read_u8 ⟨[10, 20, 30], 1, 3⟩).buf.pos ≤ 3 ∧
        (ssh_buf_read_u32 ⟨[10, 20, 30], 1, 3⟩).buf.pos ≤ 3 ∧
        (ssh_buf_read_string ⟨[10, 20, 30], 1, 3⟩).buf.pos ≤ 3 ∧
        (ssh_buf_read_skip ⟨[10, 20, 30], 1, 3⟩ 7).buf.pos ≤ 3) ∧
      ((1 : Nat) < 2^64 → (3 : Nat) < 1 + 1 →
        ssh_buf_read_u8 ⟨[10, 20, 30], 1, 3⟩ = ⟨-1, ⟨[10, 20, 30], 1, 3⟩, none⟩) ∧
      ((1 : Nat) < 2^64 → (3 : Nat) < 1 + 4 →
        ssh_buf_read_u32 ⟨[10, 20, 30], 1, 3⟩ = ⟨-1, ⟨[10, 20, 30], 1, 3⟩, none⟩ ∧
          ssh_buf_read_string ⟨[10, 20, 30], 1, 3⟩ = ⟨-1, ⟨[10, 20, 30], 1, 3⟩, none⟩) ∧
      ((1 : Nat) < 2^64 → (7 : Nat) < 2^64 → (3 : Nat) < 1 + 7 →
        ssh_buf_read_skip ⟨[10, 20, 30], 1, 3⟩ 7 = ⟨-1, ⟨[10, 20, 30], 1, 3⟩, none⟩)) :=
  reader_ops_preserve_position_invariant ⟨[10, 20, 30], 1, 3⟩ 7 (by norm_num)

/-- C10: when `ssh_buf_read_string` reads the 4-byte length field `d` but
fewer than `d` bytes remain, it returns `-1` with the position advanced by
exactly 4 past its starting value (past the length field, not restored), and
the out-parameter is left unwritten. -/
theorem read_string_truncated_body (buf : SSH_BUF_READER) (d : Nat)
    (hd : u32_from_bytes (byteAt buf.data buf.pos) (byteAt buf.data (buf.pos + 1))
        (byteAt buf.data (buf.pos + 2)) (byteAt buf.data (buf.pos + 3)) = d)
    (h1 : buf.pos + 4 ≤ buf.len) (h2 : buf.pos + 4 < 2^64)
    (h3 : buf.pos + 4 + d < 2^64) (h4 : buf.len < buf.pos + 4 + d) :
    ssh_buf_read_string buf = ⟨-1, { buf with pos := buf.pos + 4 }, none⟩ := by
  have hu := ssh_buf_read_u32_eq h2 h1
  rw [hd] at hu
  have hc : check_advance (buf.pos + 4) d buf.len = -1 :=
    check_advance_eq_neg h2 (by omega) h4
  simp [ssh_buf_read_string, hu, hc]

theorem read_string_truncated_body_witness :
    ssh_buf_read_string ⟨[0, 0, 0, 5], 0, 4⟩ = ⟨-1, ⟨[0, 0, 0, 5], 4, 4⟩, none⟩ :=
  read_string_truncated_body ⟨[0, 0, 0, 5], 0, 4⟩ 5 (by decide) (by norm_num) (by norm_num)
    (by norm_num) (by norm_num)

/-! ## Claim theorems: channel engine -/

/-- C1: the `local_num` allocation scan of `chan_new` restarts at index 1
(not 0) after bumping `local_num`, so it is not collision-free.  Reachable
run: register, register (table `[0, 1]`), close the channel numbered 0
(table `[1]`), register (gets 0, table `[1, 0]`) — the next registration is
handed `local_num` 1, which the channel at index 0 already carries (and is
not the smallest unused number, 2). -/
theorem chan_new_local_num_collision :
    chan_new_num_table [] = some (0, [0]) ∧
    chan_new_num_table [0] = some (1, [0, 1]) ∧
    chan_table_close [0, 1] 0 = [1] ∧
    chan_new_num_table [1] = some (0, [1, 0]) ∧
    chan_new_local_num [1, 0] = some 1 ∧
    1 ∈ [1, 0] ∧
    chan_new_local_num [1, 0] ≠ some 2 := by decide

/-- C2: `chan_process_channel_packet` on `CHANNEL_OPEN_FAILURE` invokes
`open_failed` but does not change the channel status: the REQUESTED channel
stays REQUESTED, so the sweep keeps it and the loop cannot exit. -/
theorem open_failure_leaves_channel_requested :
    chan_process_channel_packet ⟨[mkChan CHAN_STATUS.REQUESTED 0], []⟩
        (ssh_buf_reader_new [92, 0, 0, 0, 0]) =
      (0, ⟨[mkChan CHAN_STATUS.REQUESTED 0], []⟩, [ChanEvent.open_failed 0]) ∧
    (mkChan CHAN_STATUS.REQUESTED 0).status ≠ CHAN_STATUS.CLOSED ∧
    (chan_remove_closed_channels ⟨[mkChan CHAN_STATUS.REQUESTED 0], []⟩).channels =
      [mkChan CHAN_STATUS.REQUESTED 0] ∧
    ssh_chan_close (mkChan CHAN_STATUS.REQUESTED 0) =
      (mkChan CHAN_STATUS.REQUESTED 0, []) := by decide

/-- C3: `chan_process_packets` has no case for `CHANNEL_EOF` (96) or
`CHANNEL_CLOSE` (97): both fall into the default branch that logs an
unknown packet, so processing them returns 0 with the connection unchanged —
no channel is marked CLOSED, no reply CLOSE is emitted, no `closed`
callback runs. -/
theorem eof_close_packets_ignored :
    chan_process_packets ⟨[mkChan CHAN_STATUS.OPEN 0], []⟩
        [[96, 0, 0, 0, 0], [97, 0, 0, 0, 0]] =
      (0, ⟨[mkChan CHAN_STATUS.OPEN 0], []⟩, []) ∧
    (mkChan CHAN_STATUS.OPEN 0).status ≠ CHAN_STATUS.CLOSED := by decide

/-- C6 counterexample: `ssh_chan_close` on a REQUESTED (non-CLOSED) channel
does not move it to CLOSED — the claim says any non-CLOSED state would. -/
theorem close_requested_channel_not_closed :
    (ssh_chan_close (mkChan CHAN_STATUS.REQUESTED 0)).1.status =
      CHAN_STATUS.REQUESTED ∧
    CHAN_STATUS.REQUESTED ≠ CHAN_STATUS.CLOSED ∧
    (ssh_chan_close (mkChan CHAN_STATUS.REQUESTED 0)).2 = [] := by decide

theorem ssh_chan_close_iter_not_open {chan : SSH_CHAN}
    (h : chan.status ≠ CHAN_STATUS.OPEN) (n : Nat) :
    ssh_chan_close_iter chan n = (chan, []) := by
  induction n with
  | zero => rfl
  | succ n ih => simp [ssh_chan_close_iter, ssh_chan_close, h, ih]

/-- C6 (amended): `ssh_chan_close` moves an OPEN channel to CLOSED and fires
`closed`; on a CREATED, REQUESTED or CLOSED channel it is a no-op (the
channel does not become CLOSED).  A second call after any first call has no
further effect, and any sequence of close calls fires `closed` at most
once. -/
theorem ssh_chan_close_transition (chan : SSH_CHAN) (n : Nat) :
    ssh_chan_close { chan with status := CHAN_STATUS.OPEN } =
      ({ chan with status := CHAN_STATUS.CLOSED }, [ChanEvent.closed chan.local_num]) ∧
    ssh_chan_close { chan with status := CHAN_STATUS.CREATED } =
      ({ chan with status := CHAN_STATUS.CREATED }, []) ∧
    ssh_chan_close { chan with status := CHAN_STATUS.REQUESTED } =
      ({ chan with status := CHAN_STATUS.REQUESTED }, []) ∧
    ssh_chan_close { chan with status := CHAN_STATUS.CLOSED } =
      ({ chan with status := CHAN_STATUS.CLOSED }, []) ∧
    ssh_chan_close (ssh_chan_close chan).1 = ((ssh_chan_close chan).1, []) ∧
    (ssh_chan_close_iter chan n).2.length ≤ 1 := by
  refine ⟨by simp [ssh_chan_close], by simp [ssh_chan_close], by simp [ssh_chan_close],
    by simp [ssh_chan_close], ?_, ?_⟩
  · by_cases h : chan.status = CHAN_STATUS.OPEN
    · simp [ssh_chan_close, h]
    · simp [ssh_chan_close, h]
  · by_cases h : chan.status = CHAN_STATUS.OPEN
    · match n with
      | 0 => simp [ssh_chan_close_iter]
      | n + 1 =>
        have hcl : ssh_chan_close chan =
            ({ chan with status := CHAN_STATUS.CLOSED },
              [ChanEvent.closed chan.local_num]) := by
          simp [ssh_chan_close, h]
        have hiter : ssh_chan_close_iter { chan with status := CHAN_STATUS.CLOSED } n =
            ({ chan with status := CHAN_STATUS.CLOSED }, []) :=
          ssh_chan_close_iter_not_open (by simp) n
        simp [ssh_chan_close_iter, hcl, hiter]
    · simp [ssh_chan_close_iter_not_open h n]

/-- C7 counterexample: a channel whose `fd_ready` callback reports an error
(returns -1) is not closed by the readiness dispatch — the callback fires
and every channel, this one included, is left exactly as it was. -/
theorem fd_ready_negative_return_channel_not_closed :
    chan_notify_channels_watch_fds
        ⟨[{ mkChan CHAN_STATUS.OPEN 0 with
            watch_fds := [⟨5, 1, 0⟩], fd_ready_ret := -1 }], []⟩ ⟨5, 0, 1⟩ =
      (⟨[{ mkChan CHAN_STATUS.OPEN 0 with
            watch_fds := [⟨5, 1, 0⟩], fd_ready_ret := -1 }], []⟩,
        [ChanEvent.fd_ready 0 5 SSH_CHAN_FD_READ]) ∧
    ({ mkChan CHAN_STATUS.OPEN 0 with
        watch_fds := [⟨5, 1, 0⟩], fd_ready_ret := -1 } : SSH_CHAN).fd_ready_ret < 0 ∧
    ({ mkChan CHAN_STATUS.OPEN 0 with
        watch_fds := [⟨5, 1, 0⟩], fd_ready_ret := -1 } : SSH_CHAN).status ≠
      CHAN_STATUS.CLOSED := by decide

/-- C5 counterexample: a `CHANNEL_WINDOW_ADJUST` for existing channel 0 with
delta 50 leaves `remote_window_size` at 100 — it does not become 150 as the
claim (`remote_window + d`) requires. -/
theorem window_adjust_not_applied :
    chan_process_channel_packet
        ⟨[{ mkChan CHAN_STATUS.OPEN 0 with remote_window_size := 100 }], []⟩
        (ssh_buf_reader_new [93, 0, 0, 0, 0, 0, 0, 0, 50]) =
      (0, ⟨[{ mkChan CHAN_STATUS.OPEN 0 with remote_window_size := 100 }], []⟩, []) ∧
    ((chan_process_channel_packet
        ⟨[{ mkChan CHAN_STATUS.OPEN 0 with remote_window_size := 100 }], []⟩
        (ssh_buf_reader_new [93, 0, 0, 0, 0, 0, 0, 0, 50])).2.1.channels.getD 0
          default).remote_window_size = 100 ∧
    (100 : Nat) ≠ 100 + 50 := by decide

/-- C5 (amended): `chan_process_channel_packet` has no case for
`CHANNEL_WINDOW_ADJUST`: for an existing channel the packet is consumed up
to the type and recipient fields and then logged as unhandled, returning 0
with the whole connection — `remote_window_size` included — unchanged and
nothing emitted; no saturating add is performed. -/
theorem window_adjust_packet_ignored (conn : SSH_CONN) (i : Nat)
    (n0 n1 n2 n3 d0 d1 d2 d3 : Nat)
    (hi : chan_get_by_num conn (u32_from_bytes n0 n1 n2 n3) = some i) :
    chan_process_channel_packet conn
        (ssh_buf_reader_new [93, n0, n1, n2, n3, d0, d1, d2, d3]) =
      (0, conn, []) := by
  simp [chan_process_channel_packet, ssh_buf_reader_new, ssh_buf_read_u8,
    ssh_buf_read_u32, check_advance, checked_add, byteAt, hi,
    SSH_MSG_CHANNEL_OPEN_CONFIRMATION, SSH_MSG_CHANNEL_OPEN_FAILURE,
    SSH_MSG_CHANNEL_SUCCESS, SSH_MSG_CHANNEL_DATA]

theorem window_adjust_packet_ignored_witness :
    chan_process_channel_packet
        ⟨[{ mkChan CHAN_STATUS.OPEN 0 with remote_window_size := 100 }], []⟩
        (ssh_buf_reader_new [93, 0, 0, 0, 0, 0, 0, 0, 50]) =
      (0, ⟨[{ mkChan CHAN_STATUS.OPEN 0 with remote_window_size := 100 }], []⟩, []) :=
  window_adjust_packet_ignored
    ⟨[{ mkChan CHAN_STATUS.OPEN 0 with remote_window_size := 100 }], []⟩ 0
    0 0 0 0 0 0 0 50 (by decide)

/-- C7 (amended): the readiness dispatch
(`chan_notify_channels_watch_fds`) discards the value `fd_ready` returns:
whatever the callbacks return, the connection (every channel) comes back
unchanged — so errors cannot but stay confined — and `fd_ready` fires
exactly for the (channel, watch entry) pairs matching the signalled fd.  A
negative return from the `open` callback, by contrast, does close that
channel (`CHANNEL_SUCCESS` handling). -/
theorem fd_ready_return_ignored_open_error_closes
    (conn : SSH_CONN) (pfd : Pollfd) (ev : ChanEvent)
    (chan : SSH_CHAN) (out : List (List Nat)) (n0 n1 n2 n3 : Nat) :
    (chan_notify_channels_watch_fds conn pfd).1 = conn ∧
    ((ev ∈ (chan_notify_channels_watch_fds conn pfd).2) ↔
      ∃ c ∈ conn.channels, ∃ w ∈ c.watch_fds, pfd.revents ≠ 0 ∧ pfd.fd = w.fd ∧
        ev = ChanEvent.fd_ready c.local_num pfd.fd
          (pollfd_events_to_chan_flags pfd.revents)) ∧
    (u32_from_bytes n0 n1 n2 n3 = chan.local_num → chan.open_ret < 0 →
      chan_process_channel_packet ⟨[chan], out⟩
          (ssh_buf_reader_new [99, n0, n1, n2, n3]) =
        (0, ⟨[{ chan with status := CHAN_STATUS.CLOSED }], out⟩,
          [ChanEvent.opened chan.local_num, ChanEvent.closed chan.local_num])) := by
  refine ⟨rfl, ?_, ?_⟩
  · simp only [chan_notify_channels_watch_fds, List.mem_flatMap, List.mem_filterMap]
    constructor
    · rintro ⟨c, hc, w, hw, hsome⟩
      by_cases hcond : pfd.revents ≠ 0 ∧ pfd.fd = w.fd
      · rw [if_pos hcond] at hsome
        exact ⟨c, hc, w, hw, hcond.1, hcond.2, (Option.some_inj.mp hsome).symm⟩
      · rw [if_neg hcond] at hsome
        cases hsome
    · rintro ⟨c, hc, w, hw, hrev, hfd, hev⟩
      exact ⟨c, hc, w, hw, by rw [if_pos ⟨hrev, hfd⟩, hev]⟩
  · intro hkey hneg
    simp [chan_process_channel_packet, ssh_buf_reader_new, ssh_buf_read_u8,
      ssh_buf_read_u32, check_advance, checked_add, byteAt, hkey,
      chan_get_by_num, chan_get_by_num_loop, set_chan, ssh_chan_close, hneg,
      SSH_MSG_CHANNEL_OPEN_CONFIRMATION, SSH_MSG_CHANNEL_OPEN_FAILURE,
      SSH_MSG_CHANNEL_SUCCESS, SSH_MSG_CHANNEL_DATA]

theorem fd_ready_return_ignored_open_error_closes_witness :
    (chan_notify_channels_watch_fds ⟨[watchChan], []⟩ ⟨5, 0, 1⟩).1 =
      ⟨[watchChan], []⟩ ∧
    ((ChanEvent.fd_ready 0 5 1 ∈
        (chan_notify_channels_watch_fds ⟨[watchChan], []⟩ ⟨5, 0, 1⟩).2) ↔
      ∃ c ∈ [watchChan], ∃ w ∈ c.watch_fds, (1 : Nat) ≠ 0 ∧ (5 : Int) = w.fd ∧
        ChanEvent.fd_ready 0 5 1 = ChanEvent.fd_ready c.local_num 5
          (pollfd_events_to_chan_flags 1)) ∧
    chan_process_channel_packet ⟨[openErrChan], []⟩
        (ssh_buf_reader_new [99, 0, 0, 0, 3]) =
      (0, ⟨[{ openErrChan with status := CHAN_STATUS.CLOSED }], []⟩,
        [ChanEvent.opened 3, ChanEvent.closed 3]) := by
  refine ⟨?_, ?_, ?_⟩
  · exact (fd_ready_return_ignored_open_error_closes ⟨[watchChan], []⟩ ⟨5, 0, 1⟩
      (ChanEvent.fd_ready 0 5 1) watchChan [] 0 0 0 0).1
  · exact (fd_ready_return_ignored_open_error_closes ⟨[watchChan], []⟩ ⟨5, 0, 1⟩
      (ChanEvent.fd_ready 0 5 1) watchChan [] 0 0 0 0).2.1
  · exact (fd_ready_return_ignored_open_error_closes ⟨[openErrChan], []⟩ ⟨5, 0, 1⟩
      (ChanEvent.fd_ready 0 5 1) openErrChan [] 0 0 0 3).2.2
      (by decide) (by decide)

/-- C4 counterexample: delivering the 5-byte payload `"hello"` to channel 0
leaves `local_window_size` at 262144 — it is not decremented by 5 as the
claim requires, and no `WINDOW_ADJUST` (nor any packet) is ever sent. -/
theorem channel_data_window_not_decremented :
    chan_process_channel_packet ⟨[mkChan CHAN_STATUS.OPEN 0], []⟩
        (ssh_buf_reader_new [94, 0, 0, 0, 0, 0, 0, 0, 5, 104, 101, 108, 108, 111]) =
      (0, ⟨[mkChan CHAN_STATUS.OPEN 0], []⟩,
        [ChanEvent.received 0 [104, 101, 108, 108, 111] 5]) ∧
    ((chan_process_channel_packet ⟨[mkChan CHAN_STATUS.OPEN 0], []⟩
        (ssh_buf_reader_new [94, 0, 0, 0, 0, 0, 0, 0, 5, 104, 101, 108, 108, 111])).2.1.channels.getD
          0 default).local_window_size = 262144 ∧
    (262144 : Nat) ≠ 262144 - 5 ∧
    (chan_process_channel_packet ⟨[mkChan CHAN_STATUS.OPEN 0], []⟩
        (ssh_buf_reader_new [94, 0, 0, 0, 0, 0, 0, 0, 5, 104, 101, 108, 108, 111])).2.1.out_packets =
      [] := by decide

/-- C4 (amended): for a `CHANNEL_DATA` packet addressed to an existing
channel, `chan_process_channel_packet` delivers exactly the payload `p`
(all `p.length` bytes) to the `received` callback; the connection — every
channel window included — is unchanged and no `WINDOW_ADJUST` is sent
(window accounting is not implemented). -/
theorem channel_data_delivers_exact_payload (conn : SSH_CONN) (i : Nat)
    (n0 n1 n2 n3 l0 l1 l2 l3 : Nat) (p : List Nat)
    (hi : chan_get_by_num conn (u32_from_bytes n0 n1 n2 n3) = some i)
    (hl : u32_from_bytes l0 l1 l2 l3 = p.length)
    (hp : p.length < 2^32) :
    chan_process_channel_packet conn
        (ssh_buf_reader_new ([94, n0, n1, n2, n3, l0, l1, l2, l3] ++ p)) =
      (0, conn,
        [ChanEvent.received ((conn.channels.getD i default).local_num) p p.length]) := by
  have c1 : check_advance 0 1 (p.length + 1 + 1 + 1 + 1 + 1 + 1 + 1 + 1 + 1) = 0 :=
    check_advance_eq_zero (by norm_num) (by omega)
  have c2 : check_advance 1 4 (p.length + 1 + 1 + 1 + 1 + 1 + 1 + 1 + 1 + 1) = 0 :=
    check_advance_eq_zero (by norm_num) (by omega)
  have c3 : check_advance 5 4 (p.length + 1 + 1 + 1 + 1 + 1 + 1 + 1 + 1 + 1) = 0 :=
    check_advance_eq_zero (by norm_num) (by omega)
  have c4 : check_advance 9 p.length (p.length + 1 + 1 + 1 + 1 + 1 + 1 + 1 + 1 + 1) = 0 :=
    check_advance_eq_zero (by omega) (by omega)
  have hstr : ssh_buf_read_string
      ⟨94 :: n0 :: n1 :: n2 :: n3 :: l0 :: l1 :: l2 :: l3 :: p, 5,
        p.length + 1 + 1 + 1 + 1 + 1 + 1 + 1 + 1 + 1⟩ =
      ⟨0, ⟨94 :: n0 :: n1 :: n2 :: n3 :: l0 :: l1 :: l2 :: l3 :: p,
          (9 + p.length) % 2^64, p.length + 1 + 1 + 1 + 1 + 1 + 1 + 1 + 1 + 1⟩,
        some ⟨p, p.length⟩⟩ := by
    simp [ssh_buf_read_string, ssh_buf_read_u32, byteAt, c3, c4, hl]
  simp [chan_process_channel_packet, ssh_buf_reader_new, ssh_buf_read_u8,
    ssh_buf_read_u32, byteAt, c1, c2, hstr, hi,
    SSH_MSG_CHANNEL_OPEN_CONFIRMATION, SSH_MSG_CHANNEL_OPEN_FAILURE,
    SSH_MSG_CHANNEL_SUCCESS, SSH_MSG_CHANNEL_DATA]

theorem channel_data_delivers_exact_payload_witness :
    chan_process_channel_packet ⟨[mkChan CHAN_STATUS.OPEN 0], []⟩
        (ssh_buf_reader_new
          ([94, 0, 0, 0, 0, 0, 0, 0, 5] ++ [104, 101, 108, 108, 111])) =
      (0, ⟨[mkChan CHAN_STATUS.OPEN 0], []⟩,
        [ChanEvent.received 0 [104, 101, 108, 108, 111] 5]) :=
  channel_data_delivers_exact_payload ⟨[mkChan CHAN_STATUS.OPEN 0], []⟩ 0
    0 0 0 0 0 0 0 5 [104, 101, 108, 108, 111] (by decide) (by decide) (by decide)

theorem update_poll_fd_scan_present (fds1 fds2 : List Pollfd) (p : Pollfd)
    (add rem : Nat) (h : ∀ q ∈ fds1, q.fd ≠ p.fd) :
    update_poll_fd_scan (fds1 ++ p :: fds2) p.fd add rem =
      some (fds1 ++ { p with events := mask_clear (p.events ||| add) rem } :: fds2) := by
  induction fds1 with
  | nil => simp [update_poll_fd_scan]
  | cons q t ih =>
    have hq : q.fd ≠ p.fd := h q (List.mem_cons_self q t)
    have ht : ∀ w ∈ t, w.fd ≠ p.fd := fun w hw => h w (List.mem_cons_of_mem q hw)
    simp [update_poll_fd_scan, hq, ih ht]

theorem update_poll_fd_scan_absent (fds : List Pollfd) (fd : Int) (add rem : Nat)
    (h : ∀ q ∈ fds, q.fd ≠ fd) :
    update_poll_fd_scan fds fd add rem = none := by
  induction fds with
  | nil => rfl
  | cons q t ih =>
    simp [update_poll_fd_scan, h q (List.mem_cons_self q t),
      ih (fun w hw => h w (List.mem_cons_of_mem q hw))]

/-- C9: watch-set update semantics.  For `update_poll_fd_events`: a present
fd (first match) gets `(events | add) & ~remove` in place; an absent fd is
appended as `add & ~remove` when there is room; a full table fails.  For
`ssh_chan_watch_fd`: on a full table an update with a nonzero translated
enable mask fails leaving the channel untouched, while a remove-only call
(enable flags 0) succeeds as a no-op up to the zero-interest sweep; after
any successful call no zero-interest entry remains; and every nonempty
subset of {READ, WRITE, CLOSE} translates to a nonzero event mask. -/
theorem watch_fd_update_behavior
    (fds1 fds2 : List Pollfd) (p : Pollfd) (add rem : Nat)
    (fdsA : List Pollfd) (fdA : Int) (addA remA : Nat)
    (fdsB : List Pollfd) (fdB : Int) (addB remB : Nat)
    (chanD : SSH_CHAN) (fdD : Int) (eD dD : Nat)
    (chanE : SSH_CHAN) (fdE : Int) (dE : Nat)
    (chanF : SSH_CHAN) (fdF : Int) (eF dF : Nat) :
    ((∀ q ∈ fds1, q.fd ≠ p.fd) →
      update_poll_fd_events (fds1 ++ p :: fds2) p.fd add rem =
        (0, fds1 ++ { p with events := mask_clear (p.events ||| add) rem } :: fds2)) ∧
    ((∀ q ∈ fdsA, q.fd ≠ fdA) → fdsA.length < MAX_POLL_FDS →
      update_poll_fd_events fdsA fdA addA remA =
        (0, fdsA ++ [⟨fdA, mask_clear addA remA, 0⟩])) ∧
    ((∀ q ∈ fdsB, q.fd ≠ fdB) → ¬ fdsB.length < MAX_POLL_FDS →
      update_poll_fd_events fdsB fdB addB remB = (-1, fdsB)) ∧
    ((∀ q ∈ chanD.watch_fds, q.fd ≠ fdD) → ¬ chanD.watch_fds.length < MAX_POLL_FDS →
      chan_flags_to_pollfd_events eD ≠ 0 →
      ssh_chan_watch_fd chanD fdD eD dD = (-1, chanD)) ∧
    ((∀ q ∈ chanE.watch_fds, q.fd ≠ fdE) → ¬ chanE.watch_fds.length < MAX_POLL_FDS →
      ssh_chan_watch_fd chanE fdE 0 dE =
        (0, { chanE with
              watch_fds := chanE.watch_fds.filter (fun q => q.events ≠ 0) })) ∧
    ((ssh_chan_watch_fd chanF fdF eF dF).1 = 0 →
      ∀ q ∈ (ssh_chan_watch_fd chanF fdF eF dF).2.watch_fds, q.events ≠ 0) ∧
    (∀ f : Fin 8, f.val ≠ 0 → chan_flags_to_pollfd_events f.val ≠ 0) := by
  refine ⟨?_, ?_, ?_, ?_, ?_, ?_, by decide⟩
  · intro h
    simp [update_poll_fd_events, update_poll_fd_scan_present fds1 fds2 p add rem h]
  · intro h hlen
    simp [update_poll_fd_events, update_poll_fd_scan_absent fdsA fdA addA remA h, hlen]
  · intro h hlen
    simp [update_poll_fd_events, update_poll_fd_scan_absent fdsB fdB addB remB h, hlen]
  · intro h hfull he
    have hscan := update_poll_fd_scan_absent chanD.watch_fds fdD
      (chan_flags_to_pollfd_events eD) (chan_flags_to_pollfd_events dD) h
    simp [ssh_chan_watch_fd, update_poll_fd_events, hscan, hfull, he]
  · intro h hfull
    have he0 : chan_flags_to_pollfd_events 0 = 0 := by decide
    have hscan := update_poll_fd_scan_absent chanE.watch_fds fdE 0
      (chan_flags_to_pollfd_events dE) h
    simp [ssh_chan_watch_fd, update_poll_fd_events, he0, hscan, hfull]
  · intro hret q hq
    by_cases hcond :
      (update_poll_fd_events chanF.watch_fds fdF (chan_flags_to_pollfd_events eF)
        (chan_flags_to_pollfd_events dF)).1 < 0 ∧ chan_flags_to_pollfd_events eF ≠ 0
    · exfalso
      have hneg : (ssh_chan_watch_fd chanF fdF eF dF).1 = -1 := by
        simp [ssh_chan_watch_fd, hcond]
      rw [hret] at hneg
      exact absurd hneg (by norm_num)
    · have hres : (ssh_chan_watch_fd chanF fdF eF dF).2.watch_fds =
          (update_poll_fd_events chanF.watch_fds fdF (chan_flags_to_pollfd_events eF)
            (chan_flags_to_pollfd_events dF)).2.filter (fun w => w.events ≠ 0) := by
        simp [ssh_chan_watch_fd, hcond]
      rw [hres] at hq
      simpa using (List.mem_filter.mp hq).2

theorem watch_fd_update_behavior_witness :
    update_poll_fd_events [⟨1, 2, 0⟩, ⟨2, 1, 0⟩] 2 4 1 =
      (0, [⟨1, 2, 0⟩, ⟨2, 4, 0⟩]) ∧
    update_poll_fd_events [⟨1, 1, 0⟩] 3 4 0 = (0, [⟨1, 1, 0⟩, ⟨3, 4, 0⟩]) ∧
    update_poll_fd_events fullWatchTable 9 1 0 = (-1, fullWatchTable) ∧
    ssh_chan_watch_fd fullWatchChan 9 1 0 = (-1, fullWatchChan) ∧
    ssh_chan_watch_fd fullWatchChan 9 0 1 = (0, fullWatchChan) ∧
    (∀ q ∈ (ssh_chan_watch_fd oneWatchChan 5 2 0).2.watch_fds, q.events ≠ 0) ∧
    chan_flags_to_pollfd_events 1 ≠ 0 := by
  have T := watch_fd_update_behavior [⟨1, 2, 0⟩] [] ⟨2, 1, 0⟩ 4 1
    [⟨1, 1, 0⟩] 3 4 0 fullWatchTable 9 1 0 fullWatchChan 9 1 0
    fullWatchChan 9 1 oneWatchChan 5 2 0
  exact ⟨T.1 (by decide), T.2.1 (by decide) (by decide),
    T.2.2.1 (by decide) (by decide),
    T.2.2.2.1 (by decide) (by decide) (by decide),
    T.2.2.2.2.1 (by decide) (by decide),
    T.2.2.2.2.2.1 (by decide), T.2.2.2.2.2.2 1 (by decide)⟩

end Eessh
